import Mathlib

/-!
Shallow embedding of the device indicator checker firmware
(`modem_checker.ino`): the configuration constants, the sampling and
classification routine `indicatorStatus`, the relay reboot action and
the serial command dispatch of `loop()`, together with proofs of the
specification claims.  Serial output, sleeps, sensor acquisitions and
pin writes are modelled as an event trace; sensor hardware is an
environment of response functions.
-/

namespace ModemChecker

/-- firmware version string (source line 27). -/
def version : String := "1.1.0"

/-- Configuration globals of the sketch (source lines 30-47), gathered
into one record so theorems can quantify over the values an operator
may configure before flashing. -/
structure Config where
  PhotoresistorPin : Nat
  RelayPin : Nat
  ResetPin : Nat
  BlinkDiff : Int
  LowerLimit : Int
  InterCheckDelay : Nat
  NumberOfChecks : Nat
  RebootDelay : Nat
  SensorType : String
deriving DecidableEq

/-- the configuration with the source's initial values. -/
def defaultConfig : Config :=
  { PhotoresistorPin := 0, RelayPin := 12, ResetPin := 5,
    BlinkDiff := 140, LowerLimit := 180, InterCheckDelay := 150,
    NumberOfChecks := 10, RebootDelay := 30, SensorType := "photoresistor" }

/-- Hardware environment: what the sensors answer on each call.
`analog i` is the photoresistor reading of the i-th `analogRead`;
`asReady i j` is what `ams.dataReady()` returns on the j-th poll while
acquiring sample i; `asRead i c` is channel c (0..5) of AS726x sample
i; `tcsRead i c` is channel c (0=r, 1=g, 2=b, 3=clear) of TCS34725
sample i; the Started flags record whether `begin()` succeeded in
`setup()`. -/
structure Env where
  analog : Nat → Int
  asReady : Nat → Nat → Bool
  asRead : Nat → Nat → Int
  tcsRead : Nat → Nat → Int
  AS726xStarted : Bool
  TCS34725Started : Bool

/-- a quiescent test environment: every sensor answers 0 and is ready. -/
def env0 : Env :=
  { analog := fun _ => 0, asReady := fun _ _ => true,
    asRead := fun _ _ => 0, tcsRead := fun _ _ => 0,
    AS726xStarted := true, TCS34725Started := true }

/-- Observable events of one pass through `loop()`: serial writes,
sleeps, sensor sample acquisitions and pin operations. -/
inductive Ev where
  | print (s : String)
  | println (s : String)
  | delay (ms : Nat)
  | adapterRead
  | digitalWrite (pin : Nat) (high : Bool)
  | pinModeOutput (pin : Nat)
  | eot
deriving DecidableEq

/-- Arduino `String.toLowerCase`, modelled on the character list. -/
def lowerChars (s : String) : List Char := s.data.map Char.toLower

/-- Arduino `String.trim`: drop whitespace from both ends. -/
def trimChars (cs : List Char) : List Char :=
  ((cs.dropWhile Char.isWhitespace).reverse.dropWhile Char.isWhitespace).reverse

/-- serial input normalization performed by `loop()` (source lines
254-256): lowercase, then trim. -/
def normalizeInput (s : String) : List Char := trimChars (lowerChars s)

/-- the three indicator classifications the sketch can report. -/
inductive IndicatorState where
  | blinking
  | off
  | on
deriving DecidableEq

/-- Threshold decision shared verbatim by all three sensor branches
(source lines 99-111, 167-180 and 228-241): sort the per-sample scalar
intensities ascending (`sortArray`), report Blinking when highest
minus lowest exceeds `BlinkDiff`, otherwise Off when the lowest is
below `LowerLimit`, otherwise On. -/
def decide3 (cfg : Config) (scalars : List Int) : IndicatorState :=
  if (scalars.insertionSort (· ≤ ·)).getLastD 0
      - (scalars.insertionSort (· ≤ ·)).headD 0 > cfg.BlinkDiff then
    IndicatorState.blinking
  else if (scalars.insertionSort (· ≤ ·)).headD 0 < cfg.LowerLimit then
    IndicatorState.off
  else
    IndicatorState.on

lemma headD_le_of_sorted {l : List Int} (h : l.Sorted (· ≤ ·)) :
    ∀ x ∈ l, l.headD 0 ≤ x := by
  cases l with
  | nil => intro x hx; cases hx
  | cons a t =>
    intro x hx
    rcases List.mem_cons.mp hx with rfl | hx
    · simp
    · exact (List.sorted_cons.mp h).1 x hx

lemma le_getLastD_of_sorted :
    ∀ (l : List Int) (d : Int), l.Sorted (· ≤ ·) → ∀ x ∈ l, x ≤ l.getLastD d := by
  intro l
  induction l with
  | nil => intro d _ x hx; cases hx
  | cons a t ih =>
    intro d h x hx
    have hs := List.sorted_cons.mp h
    rw [List.getLastD_cons]
    rcases List.mem_cons.mp hx with rfl | hx
    · cases t with
      | nil => simp [List.getLastD]
      | cons b t2 =>
        exact le_trans (hs.1 b (by simp)) (ih x hs.2 b (by simp))
    · exact ih a hs.2 x hx

lemma getLastD_mem : ∀ (l : List Int) (d : Int), l ≠ [] → l.getLastD d ∈ l := by
  intro l
  induction l with
  | nil => intro d h; exact absurd rfl h
  | cons a t ih =>
    intro d _
    rw [List.getLastD_cons]
    cases t with
    | nil => simp [List.getLastD]
    | cons b t2 => exact List.mem_cons_of_mem a (ih a (by simp))

/-- the per-sample scalar intensity of a multi-channel sample: the
truncating integer mean of its channels (source lines 154-159 and
215-220; k = 6 for the AS726x, k = 3 for the TCS34725). -/
def sampleAvg (k : Int) (s : List Int) : Int := s.sum / k

/-- the `sensorAvg` array (source lines 151-159 and 212-220). -/
def channelAvgs (k : Int) (readings : List (List Int)) : List Int :=
  readings.map (sampleAvg k)

/-- the `highestReading` scan (source lines 152-165 and 213-226): walk
the averages with an index counter, starting from value 0 and index 0,
replacing the pair whenever the current average is strictly larger. -/
def highestLoop : List Int → Nat → Int × Nat → Int × Nat
  | [], _, hr => hr
  | a :: rest, i, hr => highestLoop rest (i + 1) (if a > hr.1 then (a, i) else hr)

def highestReading (avgs : List Int) : Int × Nat := highestLoop avgs 0 (0, 0)

/-- result of the multi-channel classification, with the channel
vector the firmware prints for Blinking and On. -/
inductive MultiResult where
  | blinking (v : List Int)
  | off
  | on (v : List Int)
deriving DecidableEq

/-- the multi-channel classification (source lines 151-180 with k = 6,
and 212-241 with k = 3): average each sample, remember the index of
the highest average, sort and threshold; Blinking reports the sample
at the remembered index, On reports the first sample. -/
def multiResult (cfg : Config) (k : Int) (readings : List (List Int)) : MultiResult :=
  match decide3 cfg (channelAvgs k readings) with
  | IndicatorState.blinking =>
      MultiResult.blinking (readings.getD (highestReading (channelAvgs k readings)).2 [])
  | IndicatorState.off => MultiResult.off
  | IndicatorState.on => MultiResult.on (readings.headD [])

/-- the channel rendering of the AS726x result lines (source lines
170 and 179). -/
def renderAS (v : List Int) : String :=
  "R:" ++ toString (v.getD 0 0) ++ "|O:" ++ toString (v.getD 1 0)
    ++ "|Y:" ++ toString (v.getD 2 0) ++ "|G:" ++ toString (v.getD 3 0)
    ++ "|B:" ++ toString (v.getD 4 0) ++ "|V:" ++ toString (v.getD 5 0)

/-- the channel rendering of the TCS34725 result lines (source lines
200, 231 and 240). -/
def renderTCS (v : List Int) : String :=
  "R:" ++ toString (v.getD 0 0) ++ "|G:" ++ toString (v.getD 1 0)
    ++ "|B:" ++ toString (v.getD 2 0)

/-- the photoresistor readings collected by one status call: one
`analogRead` per loop iteration (source line 88). -/
def photoReadings (cfg : Config) (env : Env) : List Int :=
  (List.range cfg.NumberOfChecks).map env.analog

/-- the sampling loop of the photoresistor branch (source lines
87-97): read, optionally echo, then `delay(InterCheckDelay)`; the
delay runs on every iteration, after the read. -/
def photoLoop (cfg : Config) (env : Env) (verbose : Bool) : Nat → Nat → List Ev
  | 0, _ => []
  | n + 1, i =>
      [Ev.adapterRead]
        ++ (if verbose then
              [Ev.print "Photoresistor Reading: ", Ev.println (toString (env.analog i))]
            else [])
        ++ [Ev.delay cfg.InterCheckDelay]
        ++ photoLoop cfg env verbose n (i + 1)

/-- the classification line printed by the photoresistor branch
(source lines 99-111). -/
def photoLine (cfg : Config) (env : Env) : String :=
  match decide3 cfg (photoReadings cfg env) with
  | IndicatorState.blinking => "Indicator Blinking"
  | IndicatorState.off => "Indicator Off"
  | IndicatorState.on => "Indicator On"

/-- The data-ready poll of the AS726x branch (source lines 125-135):
`rdy = false; notReadyCount = 0; while (!rdy) { delay(5);
rdy = ams.dataReady(); if (notReadyCount > 10000) error; }`.  The
source never increments `notReadyCount`, and this embedding
reproduces that: `cnt` is passed on unchanged.  The result is
`some (true, p)` when the sensor reported ready on the p-th poll,
`some (false, p)` when the guard fired on the p-th poll, and `none`
when `fuel` iterations were not enough (the concrete loop is still
running). -/
def pollLoop (ready : Nat → Bool) : Nat → Nat → Nat → Option (Bool × Nat)
  | 0, _, _ => none
  | fuel + 1, j, cnt =>
      if cnt > 10000 then some (false, j + 1)
      else if ready j then some (true, j + 1)
      else pollLoop ready fuel (j + 1) cnt

/-- one AS726x sample as stored into `asReadings[i]` (source lines
143-145): the six raw channel values.  The channel-index constants
`AS726x_RED` .. `AS726x_VIOLET` live in the external driver header;
the echo and the result lines are modelled as printing the six stored
values in storage order. -/
def asSample (env : Env) (i : Nat) : List Int :=
  (List.range 6).map (env.asRead i)

/-- outcome of a sampling loop that may abort early (sensor timeout
message plus `return`) or exceed the modelling fuel (`div`: the
concrete loop has not terminated). -/
inductive SampleRes where
  | div
  | abort (tr : List Ev)
  | ok (tr : List Ev) (rs : List (List Int))

/-- the sampling loop of the AS726x branch (source lines 123-148): per
sample, start a measurement, poll data-ready (one 5 ms sleep per
poll), read the six raw channels, optionally echo, then
`delay(InterCheckDelay)`. -/
def asLoop (cfg : Config) (env : Env) (fuel : Nat) (verbose : Bool) :
    Nat → Nat → SampleRes
  | 0, _ => SampleRes.ok [] []
  | n + 1, i =>
      match pollLoop (env.asReady i) fuel 0 0 with
      | none => SampleRes.div
      | some (false, p) =>
          SampleRes.abort (List.replicate p (Ev.delay 5)
            ++ [Ev.println "Error: AS726x sensor is not returning data"])
      | some (true, p) =>
          let tr1 := List.replicate p (Ev.delay 5) ++ [Ev.adapterRead]
            ++ (if verbose then
                  [Ev.print "AS726x Reading: ", Ev.println (renderAS (asSample env i))]
                else [])
            ++ [Ev.delay cfg.InterCheckDelay]
          match asLoop cfg env fuel verbose n (i + 1) with
          | SampleRes.div => SampleRes.div
          | SampleRes.abort tr => SampleRes.abort (tr1 ++ tr)
          | SampleRes.ok tr rs => SampleRes.ok (tr1 ++ tr) (asSample env i :: rs)

/-- one TCS34725 sample as stored into `asReadings[i]` (source lines
193-206): r, g and b; the clear channel is read but not stored, and
array slots 3..5 stay untouched (the inner x-loop rewrites slots 0..2
six times over). -/
def tcsSample (env : Env) (i : Nat) : List Int :=
  [env.tcsRead i 0, env.tcsRead i 1, env.tcsRead i 2]

/-- the sampling loop of the TCS34725 branch (source lines 191-209):
read, optionally echo, then `delay(InterCheckDelay)`. -/
def tcsLoop (cfg : Config) (env : Env) (verbose : Bool) :
    Nat → Nat → List Ev × List (List Int)
  | 0, _ => ([], [])
  | n + 1, i =>
      let rest := tcsLoop cfg env verbose n (i + 1)
      ([Ev.adapterRead]
        ++ (if verbose then
              [Ev.print "TCS34725 Reading: ", Ev.println (renderTCS (tcsSample env i))]
            else [])
        ++ [Ev.delay cfg.InterCheckDelay] ++ rest.1,
       tcsSample env i :: rest.2)

/-- the classification line of a multi-channel branch (source lines
167-180 and 228-241). -/
def multiLine (cfg : Config) (k : Int) (render : List Int → String)
    (readings : List (List Int)) : String :=
  match multiResult cfg k readings with
  | MultiResult.blinking v => "Indicator Blinking: " ++ render v
  | MultiResult.off => "Indicator Off"
  | MultiResult.on v => "Indicator On: " ++ render v

/-- the `indicatorStatus` routine (source lines 82-247), as the trace
of events it produces; `none` means the call has not terminated
within `fuel` data-ready polls per sample (only possible in the
AS726x branch). -/
def indicatorStatus (cfg : Config) (env : Env) (fuel : Nat) (verbose : Bool) :
    Option (List Ev) :=
  if cfg.SensorType = "photoresistor" then
    some (photoLoop cfg env verbose cfg.NumberOfChecks 0
      ++ [Ev.println (photoLine cfg env)])
  else if cfg.SensorType = "as726x" then
    if !env.AS726xStarted then
      some [Ev.println "ERROR: Cannot connect to AS726x sensor"]
    else
      match asLoop cfg env fuel verbose cfg.NumberOfChecks 0 with
      | SampleRes.div => none
      | SampleRes.abort tr => some tr
      | SampleRes.ok tr rs =>
          some (tr ++ [Ev.println (multiLine cfg 6 renderAS rs)])
  else if cfg.SensorType = "tcs34725" then
    if !env.TCS34725Started then
      some [Ev.println "ERROR: Cannot connect to TCS34725 sensor"]
    else
      some ((tcsLoop cfg env verbose cfg.NumberOfChecks 0).1
        ++ [Ev.println (multiLine cfg 3 renderTCS
              (tcsLoop cfg env verbose cfg.NumberOfChecks 0).2)])
  else
    some [Ev.println "Error: Invalid sensor type configured!"]

/-- the progress loop of the reboot action (source lines 269-272):
one "." and one 1000 ms sleep per configured second. -/
def rebootProgress : Nat → List Ev
  | 0 => []
  | n + 1 => [Ev.print ".", Ev.delay 1000] ++ rebootProgress n

/-- the reboot action (source lines 266-275): relay high, progress
loop, relay low, completion line. -/
def rebootTrace (cfg : Config) : List Ev :=
  [Ev.print "Rebooting Device ", Ev.digitalWrite cfg.RelayPin true]
    ++ rebootProgress cfg.RebootDelay
    ++ [Ev.digitalWrite cfg.RelayPin false, Ev.println "\nReboot Completed"]

/-- the reset action (source lines 277-282). -/
def resetTrace (cfg : Config) : List Ev :=
  [Ev.println "Resetting controller", Ev.delay 500,
   Ev.pinModeOutput cfg.ResetPin, Ev.digitalWrite cfg.ResetPin false]

/-- the lines printed by the help command (source lines 285-294). -/
def helpLines : List String :=
  ["Device Indicator Checker v" ++ version ++ "\n",
   "All commands are case insensitive. Available commands:",
   "ping           - Test serial connection to this device (responds with \x27pong\x27)",
   "settings       - Show set values",
   "status         - Show status of device indicator",
   "status verbose - Show status of device indicator and report each measurement",
   "reboot         - Reboot attached device",
   "help           - Print this menu",
   "version        - Print the firmware version"]

def helpTrace : List Ev := helpLines.map Ev.println

/-- the settings dump (source lines 297-314). -/
def settingsTrace (cfg : Config) : List Ev :=
  [Ev.println "Device Settings:",
   Ev.print "BlinkDiff: ", Ev.println (toString cfg.BlinkDiff),
   Ev.print "InterCheckDelay: ", Ev.println (toString cfg.InterCheckDelay),
   Ev.print "LowerLimit: ", Ev.println (toString cfg.LowerLimit),
   Ev.print "NumberOfChecks: ", Ev.println (toString cfg.NumberOfChecks),
   Ev.print "PhotoresistorPin: ", Ev.println (toString cfg.PhotoresistorPin),
   Ev.print "SensorType: ", Ev.println cfg.SensorType,
   Ev.print "RelayPin: ", Ev.println (toString cfg.RelayPin),
   Ev.print "RebootDelay: ", Ev.println (toString cfg.RebootDelay)]

/-- the character list of a string literal, for command matching. -/
def chars (s : String) : List Char := s.data

/-- the command dispatch of `loop()` (source lines 258-325): the trace
of the matched branch, before the end-of-transmission byte; `none`
propagates a non-terminating AS726x status call. -/
def respond (cfg : Config) (env : Env) (fuel : Nat) (input : String) :
    Option (List Ev) :=
  let s := normalizeInput input
  if (chars "status").isPrefixOf s then
    if (chars "verbose").isSuffixOf s then indicatorStatus cfg env fuel true
    else indicatorStatus cfg env fuel false
  else if s = chars "reboot" then some (rebootTrace cfg)
  else if s = chars "reset" then some (resetTrace cfg)
  else if s = chars "help" then some helpTrace
  else if s = chars "settings" then some (settingsTrace cfg)
  else if s = chars "ping" then some [Ev.println "pong"]
  else if s = chars "version" then
    some [Ev.println ("Device Indicator Checker v" ++ version)]
  else some [Ev.println "Unknown command. Try help?"]

/-- one pass of `loop()` (source lines 249-331): the command response
followed by the 0x04 end-of-transmission byte (source line 328). -/
def loopBody (cfg : Config) (env : Env) (fuel : Nat) (input : String) :
    Option (List Ev) :=
  (respond cfg env fuel input).map (fun tr => tr ++ [Ev.eot])

/-- C1: for every sample set, classification applies the threshold
rules in strict precedence: if the spread (max minus min scalar
intensity) exceeds `BlinkDiff` the result is Blinking regardless of
the minimum; otherwise a minimum below `LowerLimit` gives Off;
otherwise On. -/
theorem classify_threshold_precedence (cfg : Config) (scalars : List Int)
    (hne : scalars ≠ []) (mn mx : Int)
    (hmn : mn ∈ scalars ∧ ∀ x ∈ scalars, mn ≤ x)
    (hmx : mx ∈ scalars ∧ ∀ x ∈ scalars, x ≤ mx) :
    (mx - mn > cfg.BlinkDiff → decide3 cfg scalars = IndicatorState.blinking) ∧
    (mx - mn ≤ cfg.BlinkDiff → mn < cfg.LowerLimit →
      decide3 cfg scalars = IndicatorState.off) ∧
    (mx - mn ≤ cfg.BlinkDiff → cfg.LowerLimit ≤ mn →
      decide3 cfg scalars = IndicatorState.on) := by
  have hperm : (scalars.insertionSort (· ≤ ·)).Perm scalars :=
    List.perm_insertionSort _ _
  have hsort : (scalars.insertionSort (· ≤ ·)).Sorted (· ≤ ·) :=
    List.sorted_insertionSort _ _
  have hsne : scalars.insertionSort (· ≤ ·) ≠ [] := by
    intro h0
    apply hne
    have hps : scalars.Perm ([] : List Int) := by rw [← h0]; exact hperm.symm
    exact hps.eq_nil
  have hhd_mem : (scalars.insertionSort (· ≤ ·)).headD 0 ∈ scalars.insertionSort (· ≤ ·) := by
    cases hl : scalars.insertionSort (· ≤ ·) with
    | nil => exact absurd hl hsne
    | cons a t => simp
  have h1 : (scalars.insertionSort (· ≤ ·)).headD 0 = mn :=
    le_antisymm (headD_le_of_sorted hsort mn (hperm.mem_iff.mpr hmn.1))
      (hmn.2 _ (hperm.mem_iff.mp hhd_mem))
  have hlast_mem : (scalars.insertionSort (· ≤ ·)).getLastD 0 ∈ scalars.insertionSort (· ≤ ·) :=
    getLastD_mem _ 0 hsne
  have h2 : (scalars.insertionSort (· ≤ ·)).getLastD 0 = mx :=
    le_antisymm (hmx.2 _ (hperm.mem_iff.mp hlast_mem))
      (le_getLastD_of_sorted _ 0 hsort mx (hperm.mem_iff.mpr hmx.1))
  refine ⟨?_, ?_, ?_⟩
  · intro hgt
    unfold decide3
    rw [h1, h2, if_pos hgt]
  · intro hle hlt
    unfold decide3
    rw [h1, h2, if_neg (not_lt.mpr hle), if_pos hlt]
  · intro hle hge
    unfold decide3
    rw [h1, h2, if_neg (not_lt.mpr hle), if_neg (not_lt.mpr hge)]

/-- witness for C1: two samples 150 and 310 under the default
thresholds have spread 160 > 140, so the result is Blinking. -/
theorem classify_threshold_precedence_witness :
    decide3 defaultConfig [150, 310] = IndicatorState.blinking :=
  (classify_threshold_precedence defaultConfig [150, 310] (by decide) 150 310
    (by decide) (by decide)).1 (by decide)

/-- the AS726x configuration used in the timeout analysis. -/
def cfgAS : Config := { defaultConfig with SensorType := "as726x" }

/-- environment whose AS726x sensor never reports data ready. -/
def envNever : Env := { env0 with asReady := fun _ _ => false }

lemma pollLoop_stuck (ready : Nat → Bool) (hready : ∀ j, ready j = false) :
    ∀ fuel j, pollLoop ready fuel j 0 = none := by
  intro fuel
  induction fuel with
  | zero => intro j; rfl
  | succ n ih =>
    intro j
    simp only [pollLoop, hready j]
    simp [ih (j + 1)]

/-- C2 (code bug): `notReadyCount` is never incremented, so with a
sensor that never reports data ready the poll loop never takes the
timeout branch and never terminates: however many iterations are run,
the loop is still going (`none`), and a whole status call over such a
sensor produces no output at all.  The documented bound of 10000
polls and the timeout message are unreachable from the entry state
`notReadyCount = 0`. -/
theorem as726x_timeout_never_fires :
    (∀ fuel j, pollLoop (fun _ => false) fuel j 0 = none) ∧
    (∀ fuel verbose, indicatorStatus cfgAS envNever fuel verbose = none) := by
  have hp : ∀ fuel j, pollLoop (fun _ => false) fuel j 0 = none :=
    pollLoop_stuck _ (fun _ => rfl)
  refine ⟨hp, ?_⟩
  intro fuel verbose
  have hAs : asLoop cfgAS envNever fuel verbose cfgAS.NumberOfChecks 0 = SampleRes.div := by
    show asLoop cfgAS envNever fuel verbose (9 + 1) 0 = SampleRes.div
    simp only [asLoop]
    rw [show envNever.asReady 0 = (fun _ => false) from rfl, hp fuel 0]
  unfold indicatorStatus
  rw [if_neg (by decide : ¬ cfgAS.SensorType = "photoresistor"),
    if_pos (by decide : cfgAS.SensorType = "as726x"),
    if_neg (by decide : ¬ ((!envNever.AS726xStarted) = true))]
  rw [show cfgAS.NumberOfChecks = 9 + 1 from rfl] at hAs
  rw [show cfgAS.NumberOfChecks = 9 + 1 from rfl, hAs]

lemma rebootProgress_eq (n : Nat) :
    rebootProgress n = List.flatten (List.replicate n [Ev.print ".", Ev.delay 1000]) := by
  induction n with
  | zero => rfl
  | succ m ih => simp [rebootProgress, List.replicate_succ, ih]

lemma rebootProgress_count_dot (n : Nat) :
    (rebootProgress n).count (Ev.print ".") = n := by
  induction n with
  | zero => rfl
  | succ m ih =>
    show ([Ev.print ".", Ev.delay 1000] ++ rebootProgress m).count (Ev.print ".") = m + 1
    rw [List.count_append, ih]
    have h2 : ([Ev.print ".", Ev.delay 1000]).count (Ev.print ".") = 1 := by decide
    omega

lemma rebootProgress_count_sleep (n : Nat) :
    (rebootProgress n).count (Ev.delay 1000) = n := by
  induction n with
  | zero => rfl
  | succ m ih =>
    show ([Ev.print ".", Ev.delay 1000] ++ rebootProgress m).count (Ev.delay 1000) = m + 1
    rw [List.count_append, ih]
    have h2 : ([Ev.print ".", Ev.delay 1000]).count (Ev.delay 1000) = 1 := by decide
    omega

/-- C9: the reboot command drives the relay pin high, emits exactly
`RebootDelay` progress dots, one per one-second sleep, then drives
the relay pin low unconditionally and prints the completion line. -/
theorem reboot_relay_progress (cfg : Config) :
    rebootTrace cfg =
      [Ev.print "Rebooting Device ", Ev.digitalWrite cfg.RelayPin true]
        ++ List.flatten (List.replicate cfg.RebootDelay [Ev.print ".", Ev.delay 1000])
        ++ [Ev.digitalWrite cfg.RelayPin false, Ev.println "\nReboot Completed"] ∧
    (rebootProgress cfg.RebootDelay).count (Ev.print ".") = cfg.RebootDelay ∧
    (rebootProgress cfg.RebootDelay).count (Ev.delay 1000) = cfg.RebootDelay := by
  refine ⟨?_, rebootProgress_count_dot _, rebootProgress_count_sleep _⟩
  unfold rebootTrace
  rw [rebootProgress_eq]

/-- default configuration with the sample count at the boundary 2. -/
def cfg2 : Config := { defaultConfig with NumberOfChecks := 2 }

/-- default configuration with a sample count of 1. -/
def cfg1 : Config := { defaultConfig with NumberOfChecks := 1 }

/-- C3 counterexample: with two samples, the photoresistor status
call sleeps `InterCheckDelay` after the second (last) read as well -
the trace of the sampling loop ends with a sleep, it is not
read-sleep-read. -/
theorem sampler_sleeps_after_last_read :
    indicatorStatus cfg2 env0 1 false =
      some [Ev.adapterRead, Ev.delay 150, Ev.adapterRead, Ev.delay 150,
        Ev.println "Indicator Off"] ∧
    photoLoop cfg2 env0 false 2 0 =
      [Ev.adapterRead, Ev.delay 150, Ev.adapterRead, Ev.delay 150] ∧
    (photoLoop cfg2 env0 false 2 0).getLast? = some (Ev.delay 150) := by
  refine ⟨?_, ?_, ?_⟩ <;> decide

lemma photoLoop_count_reads (cfg : Config) (env : Env) (v : Bool) :
    ∀ n i, (photoLoop cfg env v n i).count Ev.adapterRead = n := by
  intro n
  induction n with
  | zero => intro i; rfl
  | succ m ih =>
    intro i
    simp only [photoLoop]
    rw [List.count_append, List.count_append, List.count_append, ih (i + 1)]
    cases v <;> simp [List.count_cons, List.count_nil] <;> omega

lemma photoLoop_silent_eq (cfg : Config) (env : Env) :
    ∀ n i, photoLoop cfg env false n i =
      List.flatten (List.replicate n [Ev.adapterRead, Ev.delay cfg.InterCheckDelay]) := by
  intro n
  induction n with
  | zero => intro i; rfl
  | succ m ih =>
    intro i
    simp only [photoLoop, List.replicate_succ, List.flatten_cons, ih (i + 1)]
    simp

lemma tcsLoop_count_reads (cfg : Config) (env : Env) (v : Bool) :
    ∀ n i, ((tcsLoop cfg env v n i).1).count Ev.adapterRead = n := by
  intro n
  induction n with
  | zero => intro i; rfl
  | succ m ih =>
    intro i
    simp only [tcsLoop]
    rw [List.count_append, List.count_append, List.count_append, ih (i + 1)]
    cases v <;> simp [List.count_cons, List.count_nil] <;> omega

/-- C3 amended: the sampler performs exactly `NumberOfChecks` adapter
reads and sleeps `InterCheckDelay` after every read, including the
last one; there is no sleep before the first read.  Without verbose
echo the photoresistor sampling trace is exactly `NumberOfChecks`
copies of read-then-sleep, and the TCS34725 sampling loop reads the
adapter the same number of times. -/
theorem sampler_read_count_and_delays (cfg : Config) (env : Env) (verbose : Bool) :
    photoLoop cfg env false cfg.NumberOfChecks 0 =
      List.flatten (List.replicate cfg.NumberOfChecks
        [Ev.adapterRead, Ev.delay cfg.InterCheckDelay]) ∧
    (photoLoop cfg env verbose cfg.NumberOfChecks 0).count Ev.adapterRead =
      cfg.NumberOfChecks ∧
    ((tcsLoop cfg env verbose cfg.NumberOfChecks 0).1).count Ev.adapterRead =
      cfg.NumberOfChecks :=
  ⟨photoLoop_silent_eq cfg env cfg.NumberOfChecks 0,
   photoLoop_count_reads cfg env verbose cfg.NumberOfChecks 0,
   tcsLoop_count_reads cfg env verbose cfg.NumberOfChecks 0⟩

/-- events that touch hardware: sensor reads and pin operations. -/
def isHardwareEv : Ev → Bool
  | Ev.adapterRead => true
  | Ev.digitalWrite _ _ => true
  | Ev.pinModeOutput _ => true
  | _ => false

/-- C10: an input line that is empty after lowercasing and trimming
matches no command: the dispatcher prints the unknown-command notice,
performs no sensor read and no pin action, and still emits the
end-of-transmission byte. -/
theorem empty_input_unknown_command (cfg : Config) (env : Env) (fuel : Nat)
    (input : String) (h : normalizeInput input = []) :
    loopBody cfg env fuel input =
      some [Ev.println "Unknown command. Try help?", Ev.eot] ∧
    ([Ev.println "Unknown command. Try help?", Ev.eot].all
      (fun e => !isHardwareEv e)) = true ∧
    ([Ev.println "Unknown command. Try help?", Ev.eot]).getLast? = some Ev.eot := by
  refine ⟨?_, by decide, by decide⟩
  unfold loopBody respond
  rw [h]
  rfl

/-- witness for C10: a line of blanks normalizes to the empty string
and draws the unknown-command notice followed by the 0x04 byte. -/
theorem empty_input_unknown_command_witness :
    loopBody defaultConfig env0 1 "   " =
      some [Ev.println "Unknown command. Try help?", Ev.eot] ∧
    ([Ev.println "Unknown command. Try help?", Ev.eot].all
      (fun e => !isHardwareEv e)) = true ∧
    ([Ev.println "Unknown command. Try help?", Ev.eot]).getLast? = some Ev.eot :=
  empty_input_unknown_command defaultConfig env0 1 "   " (by decide)

/-- the trace carried by a sampling-loop outcome. -/
def SampleRes.trace : SampleRes → List Ev
  | SampleRes.div => []
  | SampleRes.abort tr => tr
  | SampleRes.ok tr _ => tr

lemma photoLoop_no_eot (cfg : Config) (env : Env) (v : Bool) :
    ∀ n i, Ev.eot ∉ photoLoop cfg env v n i := by
  intro n
  induction n with
  | zero => intro i; simp [photoLoop]
  | succ m ih =>
    intro i
    cases v <;> simp [photoLoop, ih (i + 1)]

lemma tcsLoop_no_eot (cfg : Config) (env : Env) (v : Bool) :
    ∀ n i, Ev.eot ∉ (tcsLoop cfg env v n i).1 := by
  intro n
  induction n with
  | zero => intro i; simp [tcsLoop]
  | succ m ih =>
    intro i
    cases v <;> simp [tcsLoop, ih (i + 1)]

lemma asLoop_trace_no_eot (cfg : Config) (env : Env) (fuel : Nat) (v : Bool) :
    ∀ n i, Ev.eot ∉ (asLoop cfg env fuel v n i).trace := by
  intro n
  induction n with
  | zero => intro i; simp [asLoop, SampleRes.trace]
  | succ m ih =>
    intro i
    simp only [asLoop]
    rcases hpoll : pollLoop (env.asReady i) fuel 0 0 with _ | ⟨b, p⟩
    · simp [SampleRes.trace]
    · cases b with
      | false =>
        simp [SampleRes.trace, List.mem_append, List.mem_replicate]
      | true =>
        have hrec := ih (i + 1)
        rcases hr : asLoop cfg env fuel v m (i + 1) with _ | tr0 | ⟨tr0, rs0⟩ <;>
          rw [hr] at hrec <;>
          cases v <;>
          simp_all [SampleRes.trace, List.mem_append, List.mem_replicate]

lemma rebootProgress_no_eot (n : Nat) : Ev.eot ∉ rebootProgress n := by
  induction n with
  | zero => simp [rebootProgress]
  | succ m ih => simp [rebootProgress, ih]

lemma rebootTrace_no_eot (cfg : Config) : Ev.eot ∉ rebootTrace cfg := by
  have h := rebootProgress_no_eot cfg.RebootDelay
  simp [rebootTrace, List.mem_append, h]

lemma resetTrace_no_eot (cfg : Config) : Ev.eot ∉ resetTrace cfg := by
  simp [resetTrace]

lemma settingsTrace_no_eot (cfg : Config) : Ev.eot ∉ settingsTrace cfg := by
  simp [settingsTrace]

lemma helpTrace_no_eot : Ev.eot ∉ helpTrace := by
  simp [helpTrace, List.mem_map]

lemma indicatorStatus_no_eot (cfg : Config) (env : Env) (fuel : Nat) (v : Bool)
    (tr : List Ev) (h : indicatorStatus cfg env fuel v = some tr) :
    Ev.eot ∉ tr := by
  by_cases h1 : cfg.SensorType = "photoresistor"
  · rw [indicatorStatus, if_pos h1] at h
    injection h with h
    subst h
    simp [List.mem_append, photoLoop_no_eot cfg env v cfg.NumberOfChecks 0]
  · by_cases h2 : cfg.SensorType = "as726x"
    · rw [indicatorStatus, if_neg h1, if_pos h2] at h
      by_cases h3 : env.AS726xStarted = true
      · rw [if_neg (by simp [h3])] at h
        have ht := asLoop_trace_no_eot cfg env fuel v cfg.NumberOfChecks 0
        rcases heq : asLoop cfg env fuel v cfg.NumberOfChecks 0 with _ | tr0 | ⟨tr0, rs0⟩
        · rw [heq] at h
          simp at h
        · rw [heq] at h ht
          simp only [SampleRes.trace] at ht
          have h5 : some tr0 = some tr := h
          injection h5 with h5
          subst h5
          exact ht
        · rw [heq] at h ht
          simp only [SampleRes.trace] at ht
          have h5 : some (tr0 ++ [Ev.println (multiLine cfg 6 renderAS rs0)]) = some tr := h
          injection h5 with h5
          subst h5
          simp [List.mem_append, ht]
      · rw [if_pos (by simp [h3])] at h
        injection h with h
        subst h
        simp
    · by_cases h3 : cfg.SensorType = "tcs34725"
      · rw [indicatorStatus, if_neg h1, if_neg h2, if_pos h3] at h
        by_cases h4 : env.TCS34725Started = true
        · rw [if_neg (by simp [h4])] at h
          injection h with h
          subst h
          simp [List.mem_append, tcsLoop_no_eot cfg env v cfg.NumberOfChecks 0]
        · rw [if_pos (by simp [h4])] at h
          injection h with h
          subst h
          simp
      · rw [indicatorStatus, if_neg h1, if_neg h2, if_neg h3] at h
        injection h with h
        subst h
        simp

lemma respond_no_eot (cfg : Config) (env : Env) (fuel : Nat) (input : String)
    (tr : List Ev) (h : respond cfg env fuel input = some tr) :
    Ev.eot ∉ tr := by
  simp only [respond] at h
  by_cases hc1 : (chars "status").isPrefixOf (normalizeInput input) = true
  · rw [if_pos hc1] at h
    by_cases hc2 : (chars "verbose").isSuffixOf (normalizeInput input) = true
    · rw [if_pos hc2] at h
      exact indicatorStatus_no_eot cfg env fuel true tr h
    · rw [if_neg hc2] at h
      exact indicatorStatus_no_eot cfg env fuel false tr h
  · rw [if_neg hc1] at h
    by_cases hc2 : normalizeInput input = chars "reboot"
    · rw [if_pos hc2] at h
      injection h with h
      subst h
      exact rebootTrace_no_eot cfg
    · rw [if_neg hc2] at h
      by_cases hc3 : normalizeInput input = chars "reset"
      · rw [if_pos hc3] at h
        injection h with h
        subst h
        exact resetTrace_no_eot cfg
      · rw [if_neg hc3] at h
        by_cases hc4 : normalizeInput input = chars "help"
        · rw [if_pos hc4] at h
          injection h with h
          subst h
          exact helpTrace_no_eot
        · rw [if_neg hc4] at h
          by_cases hc5 : normalizeInput input = chars "settings"
          · rw [if_pos hc5] at h
            injection h with h
            subst h
            exact settingsTrace_no_eot cfg
          · rw [if_neg hc5] at h
            by_cases hc6 : normalizeInput input = chars "ping"
            · rw [if_pos hc6] at h
              injection h with h
              subst h
              simp
            · rw [if_neg hc6] at h
              by_cases hc7 : normalizeInput input = chars "version"
              · rw [if_pos hc7] at h
                injection h with h
                subst h
                simp
              · rw [if_neg hc7] at h
                injection h with h
                subst h
                simp

/-- C5: every dispatched response ends with exactly one 0x04
end-of-transmission byte: whatever the input line and however the
sensors answer, a terminating pass of `loop()` places `eot` last in
the trace and nowhere else. -/
theorem response_single_eot (cfg : Config) (env : Env) (fuel : Nat)
    (input : String) (out : List Ev) (h : loopBody cfg env fuel input = some out) :
    out.getLast? = some Ev.eot ∧ out.count Ev.eot = 1 := by
  unfold loopBody at h
  rcases hr : respond cfg env fuel input with _ | tr
  · rw [hr] at h
    cases h
  · rw [hr] at h
    have h2 : some (tr ++ [Ev.eot]) = some out := h
    injection h2 with h2
    subst h2
    refine ⟨List.getLast?_concat _, ?_⟩
    rw [List.count_append,
      List.count_eq_zero.mpr (respond_no_eot cfg env fuel input tr hr)]
    decide

/-- witness for C5: the ping command answers pong followed by the
0x04 byte, which is last and unique. -/
theorem response_single_eot_witness :
    ([Ev.println "pong", Ev.eot] : List Ev).getLast? = some Ev.eot ∧
    ([Ev.println "pong", Ev.eot] : List Ev).count Ev.eot = 1 :=
  response_single_eot defaultConfig env0 1 "ping" [Ev.println "pong", Ev.eot] (by decide)

lemma photoLoop_verbose_eq (cfg : Config) (env : Env) :
    ∀ n i, photoLoop cfg env true n i =
      List.flatten ((List.range n).map (fun j =>
        [Ev.adapterRead, Ev.print "Photoresistor Reading: ",
         Ev.println (toString (env.analog (i + j))), Ev.delay cfg.InterCheckDelay])) := by
  intro n
  induction n with
  | zero => intro i; rfl
  | succ m ih =>
    intro i
    have e1 : ∀ j, env.analog (i + Nat.succ j) = env.analog (i + 1 + j) := by
      intro j
      rw [show i + Nat.succ j = i + 1 + j from by omega]
    rw [List.range_succ_eq_map]
    simp only [List.map_cons, List.flatten_cons, List.map_map, Function.comp_def, e1]
    rw [← ih (i + 1)]
    simp [photoLoop]

/-- C8: the dispatcher lowercases and trims each input line; any
normalized line that starts with "status" and ends with "verbose"
(such as the raw input " STATUS VERBOSE ") takes the verbose
classification path, which - for the photoresistor sensor - echoes
every raw sample reading before the final classification line, with
the end-of-transmission byte after it. -/
theorem status_verbose_dispatch (cfg : Config) (env : Env) (fuel : Nat)
    (input : String)
    (hpre : (chars "status").isPrefixOf (normalizeInput input) = true)
    (hsuf : (chars "verbose").isSuffixOf (normalizeInput input) = true)
    (hsensor : cfg.SensorType = "photoresistor") :
    loopBody cfg env fuel input =
      some (photoLoop cfg env true cfg.NumberOfChecks 0
        ++ [Ev.println (photoLine cfg env), Ev.eot]) ∧
    photoLoop cfg env true cfg.NumberOfChecks 0 =
      List.flatten ((List.range cfg.NumberOfChecks).map (fun j =>
        [Ev.adapterRead, Ev.print "Photoresistor Reading: ",
         Ev.println (toString (env.analog j)), Ev.delay cfg.InterCheckDelay])) := by
  constructor
  · unfold loopBody
    simp only [respond]
    rw [if_pos hpre, if_pos hsuf]
    rw [indicatorStatus, if_pos hsensor]
    simp [List.append_assoc]
  · have h := photoLoop_verbose_eq cfg env cfg.NumberOfChecks 0
    simpa using h

/-- witness for C8: raw input " STATUS VERBOSE " under a photoresistor
configuration with two samples takes the verbose path and echoes both
readings before the classification line and the 0x04 byte. -/
theorem status_verbose_dispatch_witness :
    loopBody cfg2 env0 1 " STATUS VERBOSE " =
      some (photoLoop cfg2 env0 true cfg2.NumberOfChecks 0
        ++ [Ev.println (photoLine cfg2 env0), Ev.eot]) ∧
    photoLoop cfg2 env0 true cfg2.NumberOfChecks 0 =
      List.flatten ((List.range cfg2.NumberOfChecks).map (fun j =>
        [Ev.adapterRead, Ev.print "Photoresistor Reading: ",
         Ev.println (toString (env0.analog j)), Ev.delay cfg2.InterCheckDelay])) :=
  status_verbose_dispatch cfg2 env0 1 " STATUS VERBOSE " (by decide) (by decide) rfl

/-- C7 counterexample: with a configured sample count of 1 nothing
rejects the configuration - the status call samples the sensor once
and prints a normal classification line, so counts below 2 are not
stopped by any validation before sampling. -/
theorem sample_count_one_not_rejected :
    indicatorStatus cfg1 env0 1 false =
      some [Ev.adapterRead, Ev.delay 150, Ev.println "Indicator Off"] ∧
    Ev.adapterRead ∈ [Ev.adapterRead, Ev.delay 150, Ev.println "Indicator Off"] := by
  refine ⟨?_, ?_⟩ <;> decide

/-- C7 amended: the firmware has no sample-count validation: under
the photoresistor sensor every configured count of at least 1 is
simply run - the sensor is read exactly `NumberOfChecks` times and
exactly one classification line (Blinking, Off or On) follows.  In
particular a count of 2 does not error, and counts of 1 (or any other
positive count) are not rejected.  A count of 0 makes the source
index out of the sample array's bounds and is outside the model. -/
theorem sample_count_no_validation (cfg : Config) (env : Env) (fuel : Nat)
    (hsensor : cfg.SensorType = "photoresistor") (hn : 1 ≤ cfg.NumberOfChecks) :
    indicatorStatus cfg env fuel false =
      some (photoLoop cfg env false cfg.NumberOfChecks 0
        ++ [Ev.println (photoLine cfg env)]) ∧
    (photoLoop cfg env false cfg.NumberOfChecks 0).count Ev.adapterRead =
      cfg.NumberOfChecks ∧
    (photoLine cfg env = "Indicator Blinking" ∨ photoLine cfg env = "Indicator Off" ∨
      photoLine cfg env = "Indicator On") := by
  refine ⟨?_, photoLoop_count_reads cfg env false cfg.NumberOfChecks 0, ?_⟩
  · rw [indicatorStatus, if_pos hsensor]
  · cases hd : decide3 cfg (photoReadings cfg env) <;> simp [photoLine, hd]

/-- witness for C7 (amended): with the boundary count 2 the status
call reads twice and reports a classification line without error. -/
theorem sample_count_no_validation_witness :
    (indicatorStatus cfg2 env0 1 false =
      some (photoLoop cfg2 env0 false cfg2.NumberOfChecks 0
        ++ [Ev.println (photoLine cfg2 env0)])) ∧
    (photoLoop cfg2 env0 false cfg2.NumberOfChecks 0).count Ev.adapterRead =
      cfg2.NumberOfChecks ∧
    (photoLine cfg2 env0 = "Indicator Blinking" ∨ photoLine cfg2 env0 = "Indicator Off" ∨
      photoLine cfg2 env0 = "Indicator On") :=
  sample_count_no_validation cfg2 env0 1 rfl (by decide)

lemma highestLoop_spec :
    ∀ (l : List Int) (i : Nat) (hr : Int × Nat),
      hr.1 ≤ (highestLoop l i hr).1 ∧
      (∀ a ∈ l, a ≤ (highestLoop l i hr).1) ∧
      (highestLoop l i hr = hr ∨
        ∃ kk, kk < l.length ∧ (highestLoop l i hr).2 = i + kk ∧
          (highestLoop l i hr).1 = l.getD kk 0) := by
  intro l
  induction l with
  | nil =>
    intro i hr
    refine ⟨le_refl _, ?_, Or.inl rfl⟩
    intro a ha
    cases ha
  | cons a t ih =>
    intro i hr
    by_cases hgt : a > hr.1
    · have e : highestLoop (a :: t) i hr = highestLoop t (i + 1) (a, i) := by
        simp [highestLoop, hgt]
      obtain ⟨h1, h2, h3⟩ := ih (i + 1) (a, i)
      rw [e]
      refine ⟨le_trans (le_of_lt hgt) h1, ?_, ?_⟩
      · intro x hx
        rcases List.mem_cons.mp hx with rfl | hx
        · exact h1
        · exact h2 x hx
      · rcases h3 with heq | ⟨kk, hk1, hk2, hk3⟩
        · right
          refine ⟨0, by simp, ?_, ?_⟩
          · rw [heq]
            simp
          · rw [heq]
            simp
        · right
          refine ⟨kk + 1, ?_, ?_, ?_⟩
          · simp only [List.length_cons]
            omega
          · rw [hk2]
            omega
          · rw [hk3, List.getD_cons_succ]
    · have e : highestLoop (a :: t) i hr = highestLoop t (i + 1) hr := by
        simp [highestLoop, hgt]
      obtain ⟨h1, h2, h3⟩ := ih (i + 1) hr
      rw [e]
      refine ⟨h1, ?_, ?_⟩
      · intro x hx
        rcases List.mem_cons.mp hx with rfl | hx
        · exact le_trans (not_lt.mp hgt) h1
        · exact h2 x hx
      · rcases h3 with heq | ⟨kk, hk1, hk2, hk3⟩
        · exact Or.inl heq
        · right
          refine ⟨kk + 1, ?_, ?_, ?_⟩
          · simp only [List.length_cons]
            omega
          · rw [hk2]
            omega
          · rw [hk3, List.getD_cons_succ]

lemma channelAvgs_getD (k : Int) (readings : List (List Int)) (j : Nat)
    (hj : j < readings.length) :
    (channelAvgs k readings).getD j 0 = sampleAvg k (readings.getD j []) := by
  have hj2 : j < (channelAvgs k readings).length := by
    simpa [channelAvgs] using hj
  rw [List.getD_eq_getElem _ _ hj2, List.getD_eq_getElem _ _ hj]
  simp [channelAvgs]

/-- C4: for every multi-channel sample set (nonnegative channel
values, as the sensors deliver), the tracked brightest index is in
range and its per-sample average dominates every other sample's
average; a Blinking result carries exactly that sample's channel
vector and an On result carries the first sample's channel vector. -/
theorem blinking_brightest_on_first (cfg : Config) (k : Int)
    (readings : List (List Int)) (hne : readings ≠ []) (hk : 0 < k)
    (hnn : ∀ s ∈ readings, ∀ c ∈ s, (0 : Int) ≤ c) :
    (highestReading (channelAvgs k readings)).2 < readings.length ∧
    ((channelAvgs k readings).all (fun a =>
      decide (a ≤ sampleAvg k
        (readings.getD (highestReading (channelAvgs k readings)).2 [])))) = true ∧
    (multiResult cfg k readings =
        MultiResult.blinking
          (readings.getD (highestReading (channelAvgs k readings)).2 []) ∨
      multiResult cfg k readings = MultiResult.off ∨
      multiResult cfg k readings = MultiResult.on (readings.headD [])) := by
  have hlen : (channelAvgs k readings).length = readings.length := by
    simp [channelAvgs]
  have hnn2 : ∀ a ∈ channelAvgs k readings, 0 ≤ a := by
    intro a ha
    rcases List.mem_map.mp ha with ⟨s, hs, rfl⟩
    exact Int.ediv_nonneg (List.sum_nonneg (hnn s hs)) (le_of_lt hk)
  obtain ⟨h1, h2, h3⟩ := highestLoop_spec (channelAvgs k readings) 0 (0, 0)
  have hrr : highestLoop (channelAvgs k readings) 0 (0, 0) =
      highestReading (channelAvgs k readings) := rfl
  rw [hrr] at h1 h2 h3
  have hpos : 0 < readings.length := List.length_pos.mpr hne
  have key : (highestReading (channelAvgs k readings)).2 < readings.length ∧
      ∀ a ∈ channelAvgs k readings,
        a ≤ (channelAvgs k readings).getD
          (highestReading (channelAvgs k readings)).2 0 := by
    rcases h3 with heq | ⟨kk, hk1, hk2, hk3⟩
    · refine ⟨by rw [heq]; exact hpos, ?_⟩
      intro a ha
      have ha0 : a ≤ 0 := by
        have hh := h2 a ha
        rw [heq] at hh
        exact hh
      have hd0 : 0 ≤ (channelAvgs k readings).getD
          (highestReading (channelAvgs k readings)).2 0 := by
        apply hnn2
        have hin : (highestReading (channelAvgs k readings)).2 <
            (channelAvgs k readings).length := by
          rw [heq, hlen]
          exact hpos
        rw [List.getD_eq_getElem _ _ hin]
        exact List.getElem_mem hin
      exact le_trans ha0 hd0
    · have hidx : (highestReading (channelAvgs k readings)).2 = kk := by
        rw [hk2]
        omega
      refine ⟨by rw [hidx, ← hlen]; exact hk1, ?_⟩
      intro a ha
      have hh := h2 a ha
      rw [hk3, hidx] at *
      exact hh
  refine ⟨key.1, ?_, ?_⟩
  · rw [List.all_eq_true]
    intro a ha
    rw [decide_eq_true_eq]
    have hh := key.2 a ha
    rwa [channelAvgs_getD k readings _ key.1] at hh
  · cases hd : decide3 cfg (channelAvgs k readings) <;> simp [multiResult, hd]

/-- two AS726x samples used in the C4 witness: a dark sample and a
bright one. -/
def rdgs6 : List (List Int) :=
  [[0, 0, 0, 0, 0, 0], [600, 600, 600, 600, 600, 600]]

/-- witness for C4: of two samples with averages 0 and 600 under the
default thresholds the result is Blinking, and it carries the second
(brightest) sample's channel vector. -/
theorem blinking_brightest_on_first_witness :
    (highestReading (channelAvgs 6 rdgs6)).2 < rdgs6.length ∧
    ((channelAvgs 6 rdgs6).all (fun a =>
      decide (a ≤ sampleAvg 6
        (rdgs6.getD (highestReading (channelAvgs 6 rdgs6)).2 [])))) = true ∧
    (multiResult defaultConfig 6 rdgs6 =
        MultiResult.blinking (rdgs6.getD (highestReading (channelAvgs 6 rdgs6)).2 []) ∨
      multiResult defaultConfig 6 rdgs6 = MultiResult.off ∨
      multiResult defaultConfig 6 rdgs6 = MultiResult.on (rdgs6.headD [])) :=
  blinking_brightest_on_first defaultConfig 6 rdgs6 (by decide) (by decide) (by decide)

/-- whether `pat` occurs as a contiguous run inside a character list. -/
def containsSeq (pat : List Char) : List Char → Bool
  | [] => pat.isPrefixOf []
  | c :: rest => pat.isPrefixOf (c :: rest) || containsSeq pat rest

/-- C6 counterexample: the dispatcher accepts the command "reset" and
routes it to the reset action, but the string "reset" occurs nowhere
in the help text, so help does not reproduce the full accepted
command set. -/
theorem help_omits_reset :
    respond defaultConfig env0 1 "reset" = some (resetTrace defaultConfig) ∧
    (helpLines.all (fun l => !containsSeq (chars "reset") l.data)) = true := by
  refine ⟨?_, ?_⟩ <;> decide

/-- C6 amended: the help text lists each of status, status verbose,
reboot, help, settings, ping and version with its exact command
string at the start of a line, but the dispatcher-accepted command
reset does not appear in it (while a "reset" input line is indeed
dispatched to the reset action and not to the unknown-command
notice). -/
theorem help_table_missing_reset :
    (helpLines.any (fun l => (chars "status ").isPrefixOf l.data)) = true ∧
    (helpLines.any (fun l => (chars "status verbose ").isPrefixOf l.data)) = true ∧
    (helpLines.any (fun l => (chars "reboot ").isPrefixOf l.data)) = true ∧
    (helpLines.any (fun l => (chars "help ").isPrefixOf l.data)) = true ∧
    (helpLines.any (fun l => (chars "settings ").isPrefixOf l.data)) = true ∧
    (helpLines.any (fun l => (chars "ping ").isPrefixOf l.data)) = true ∧
    (helpLines.any (fun l => (chars "version ").isPrefixOf l.data)) = true ∧
    (helpLines.all (fun l => !containsSeq (chars "reset") l.data)) = true ∧
    loopBody defaultConfig env0 1 "reset" =
      some (resetTrace defaultConfig ++ [Ev.eot]) := by
  refine ⟨?_, ?_, ?_, ?_, ?_, ?_, ?_, ?_, ?_⟩ <;> decide

end ModemChecker
